import Mathlib

/-!
Verification of the IPTV media-source playlist pipeline
(`custom_components/iptv_media_source/media_source.py`).

The development shallowly embeds:
* `EXTINF_REGEX` together with Python's `re.match` first-match (leftmost,
  preference-ordered backtracking) semantics, as `extinfMatchL`;
* the line loop of `async_parse_m3u` (lines 95-145) as `processLine` /
  `parseLines` / `parseContent`, with the possibility of an uncaught
  `AttributeError` (`None.strip()`) modelled as `Except.error`;
* the freshness cache logic of `async_parse_m3u` (lines 60-63, 84-93, 144)
  as `async_parse_m3u`, with the network fetch outcome passed in as data;
* `async_resolve_media` (lines 163-167) and
  `_async_browse_m3u_channels` (lines 234-282).
-/

deriving instance DecidableEq for Except

namespace IPTV

/-- Python `\s` / `str.strip` whitespace, restricted to the ASCII range
(the inputs considered here are ASCII). -/
def isSpc (c : Char) : Bool :=
  c = ' ' || c = '\t' || c = '\n' || c = '\r' || c = '\x0b' || c = '\x0c'

/-- ASCII lower-casing, as used by `re.IGNORECASE` on ASCII input. -/
def lowerChar (c : Char) : Char :=
  if 'A' ≤ c ∧ c ≤ 'Z' then Char.ofNat (c.toNat + 32) else c

/-- Case-insensitive character comparison (`re.IGNORECASE`). -/
def charIEq (a b : Char) : Bool := lowerChar a = lowerChar b

/-- Match a literal case-insensitively at the head of the input, returning
the remainder on success. -/
def dropCaseLit : List Char → List Char → Option (List Char)
  | [], cs => some cs
  | _ :: _, [] => none
  | k :: ks, c :: cs => if charIEq k c then dropCaseLit ks cs else none

/-- Python `str.strip()` (both-ends whitespace strip) on a character list. -/
def stripL (l : List Char) : List Char :=
  ((l.dropWhile isSpc).reverse.dropWhile isSpc).reverse

/-- Python `str.strip()` on strings. -/
def pystrip (s : String) : String := ⟨stripL s.data⟩

/-- Python `str.splitlines()` restricted to the line boundaries
`\r\n`, `\n`, `\r`, `\x0b`, `\x0c` (no trailing empty line for a trailing
terminator, exactly as in Python). -/
def isLineBreak (c : Char) : Bool :=
  c = '\n' || c = '\r' || c = '\x0b' || c = '\x0c'

def splitLinesAux : List Char → List Char → List (List Char)
  | [], acc => if acc.isEmpty then [] else [acc.reverse]
  | '\r' :: '\n' :: rest, acc => acc.reverse :: splitLinesAux rest []
  | c :: rest, acc =>
    if isLineBreak c then acc.reverse :: splitLinesAux rest []
    else splitLinesAux rest (c :: acc)

def splitLines (l : List Char) : List (List Char) := splitLinesAux l []

/-! ### The `EXTINF_REGEX` matcher

```
#EXTINF:(?P<duration>-?\d+)
(?:.*?\s+tvg-id="(?P<tvg_id>[^"]*)")?
(?:.*?\s+tvg-name="(?P<tvg_name>[^"]*)")?
(?:.*?\s+tvg-logo="(?P<tvg_logo>[^"]*)")?
(?:.*?\s+group-title="(?P<group_title>[^"]*)")?
.*?,\s*(?P<name>[^,]+)$
```
compiled with `re.IGNORECASE` and applied with `re.match` (anchored at the
start; `$` anchors the end since matched lines carry no newline).

The embedding implements the engine's preference order directly:
each optional group is greedy (matching preferred over skipping), its inner
`.*?` is lazy (shorter prefixes tried first, realised as a left-to-right
scan), `\s+`/`[^"]*`/`\d+` are deterministic here because the following
literal cannot begin with a character of the repeated class. -/

/-- Attempt `\s+key"`-style block at exactly this position:
one-or-more whitespace, the literal `key` (e.g. `tvg-id="`),
then a capture up to the next `"`. Returns (capture, remainder). -/
def matchAttrAt (key : List Char) : List Char → Option (List Char × List Char)
  | [] => none
  | c :: rest =>
    if isSpc c then
      match dropCaseLit key (rest.dropWhile isSpc) with
      | some cs =>
        match cs.dropWhile (fun d => !(d = '"')) with
        | '"' :: r => some (cs.takeWhile (fun d => !(d = '"')), r)
        | _ => none
      | none => none
    else none

/-- One optional attribute group `(?:.*?\s+key…")?` with backtracking into
the continuation `next`: occurrences are tried left-to-right (lazy `.*?`),
and only if every occurrence makes the continuation fail is the group
skipped (greedy `?`), resuming at the original position. -/
def tryAttrGo {α : Type} (key : List Char)
    (next : Option (List Char) → List Char → Option α) (orig : List Char) :
    List Char → Option α
  | [] => next none orig
  | c :: rest =>
    match matchAttrAt key (c :: rest) with
    | some (v, r) =>
      match next (some v) r with
      | some a => some a
      | none => tryAttrGo key next orig rest
    | none => tryAttrGo key next orig rest

def tryAttr {α : Type} (key : List Char)
    (next : Option (List Char) → List Char → Option α) (cs : List Char) :
    Option α :=
  tryAttrGo key next cs cs

/-- The final `.*?,\s*(?P<name>[^,]+)$`: scan for the first comma whose
suffix contains no further comma (lazy `.*?`); the captured name is that
suffix without its leading whitespace, except that a whitespace-only
suffix yields its last character (the greedy `\s*` backtracks by one so
that `[^,]+` is non-empty). -/
def matchTail : List Char → Option (List Char)
  | [] => none
  | c :: rest =>
    if c = ',' && !(rest.contains ',') then
      let t := rest.dropWhile isSpc
      if t.isEmpty then
        match rest.getLast? with
        | some d => some [d]
        | none => none
      else some t
    else matchTail rest

/-- `-?\d+` at the head of the input (greedy, deterministic: the regex
continues with patterns that cannot start with a digit usefully shorter). -/
def matchDuration : List Char → Option (List Char × List Char)
  | '-' :: cs =>
    let ds := cs.takeWhile Char.isDigit
    if ds.isEmpty then none else some ('-' :: ds, cs.dropWhile Char.isDigit)
  | cs =>
    let ds := cs.takeWhile Char.isDigit
    if ds.isEmpty then none else some (ds, cs.dropWhile Char.isDigit)

/-- The named groups of a successful `EXTINF_REGEX` match, as returned by
`match.groupdict()`: optional groups that did not participate are `none`
(Python `None`); `duration` and `name` are mandatory in any match. -/
structure ExtinfInfo where
  duration : String
  tvg_id : Option String
  tvg_name : Option String
  tvg_logo : Option String
  group_title : Option String
  name : String
deriving DecidableEq, Repr

def kId : List Char := "tvg-id=\"".data
def kName : List Char := "tvg-name=\"".data
def kLogo : List Char := "tvg-logo=\"".data
def kGroup : List Char := "group-title=\"".data
def kExtinf : List Char := "#EXTINF:".data

/-- `EXTINF_REGEX.match(line)` on a (stripped) line given as a char list. -/
def extinfMatchL (line : List Char) : Option ExtinfInfo :=
  match dropCaseLit kExtinf line with
  | none => none
  | some cs0 =>
    match matchDuration cs0 with
    | none => none
    | some (dur, cs1) =>
      tryAttr kId (fun tid cs2 =>
        tryAttr kName (fun tnm cs3 =>
          tryAttr kLogo (fun tlg cs4 =>
            tryAttr kGroup (fun tgt cs5 =>
              (matchTail cs5).map (fun nm =>
                { duration := ⟨dur⟩
                  tvg_id := tid.map (⟨·⟩)
                  tvg_name := tnm.map (⟨·⟩)
                  tvg_logo := tlg.map (⟨·⟩)
                  group_title := tgt.map (⟨·⟩)
                  name := ⟨nm⟩ })) cs4) cs3) cs2) cs1

/-- `EXTINF_REGEX.match` on a string. -/
def extinfMatch (line : String) : Option ExtinfInfo := extinfMatchL line.data

/-! ### The parse loop of `async_parse_m3u` (media_source.py lines 95-145) -/

/-- One parsed channel dictionary (media_source.py lines 124-132). -/
structure Channel where
  name : String
  url : String
  logo : Option String
  group : String
  original_m3u_url : String
deriving DecidableEq, Repr

/-- The one uncaught Python exception the loop can raise:
`current_channel_info.get("group_title", "Uncategorized")` returns the
stored `None` when the group did not participate (the key is always
present in `groupdict()`, so the default is never used), and `.strip()`
on `None` raises `AttributeError` (line 122). -/
inductive ParseErr
  | attrNoneStrip
deriving DecidableEq, Repr

/-- Loop state: the channels emitted so far and `current_channel_info`
(`none` models the empty dict `{}`). -/
structure PState where
  channels : List Channel
  cur : Option ExtinfInfo
deriving DecidableEq, Repr

/-- Lines 110-115: if the free-text `name` is falsy and `tvg_name` is
truthy, the `tvg_name` value becomes the name. (In a successful match
`name` is a non-empty string, never `None`, so the further
`name is None → "Unnamed Channel"` branch of line 114 is unreachable and
has no counterpart here.) -/
def applyNameFixups (g : ExtinfInfo) : ExtinfInfo :=
  if g.name = "" then
    match g.tvg_name with
    | some s => if s = "" then g else { g with name := s }
    | none => g
  else g

/-- `line.startswith("http://") or line.startswith("https://")`. -/
def isStreamUrl (l : List Char) : Bool :=
  "http://".data.isPrefixOf l || "https://".data.isPrefixOf l

/-- The channel dictionary built at lines 120-132 from the pending
metadata `info` (whose `group_title` participated with value `gt`) and
the stripped URL line. `logo if logo else None` maps both `None` and the
empty string to `None`. -/
def mkChannel (m3u_url : String) (info : ExtinfInfo) (gt : String)
    (line : List Char) : Channel :=
  { name := pystrip info.name
    url := ⟨line⟩
    logo := match info.tvg_logo with
            | some l => if l = "" then none else some l
            | none => none
    group := pystrip gt
    original_m3u_url := m3u_url }

/-- One iteration of the `for line in lines` loop (lines 102-139),
operating on the raw (unstripped) line. -/
def processLine (m3u_url : String) (st : PState) (rawLine : List Char) :
    Except ParseErr PState :=
  let line := stripL rawLine
  if line.isEmpty then .ok st
  else
    match extinfMatchL line with
    | some g => .ok { st with cur := some (applyNameFixups g) }
    | none =>
      match st.cur with
      | some info =>
        if isStreamUrl line then
          match info.group_title with
          | none => .error .attrNoneStrip
          | some gt =>
            .ok { channels := st.channels ++ [mkChannel m3u_url info gt line]
                  cur := none }
        else .ok st
      | none => .ok st

/-- The loop folded over a list of lines, propagating the uncaught
exception. -/
def parseLinesFrom (m3u_url : String) (st : PState) :
    List (List Char) → Except ParseErr (List Channel)
  | [] => .ok st.channels
  | l :: ls =>
    match processLine m3u_url st l with
    | .error e => .error e
    | .ok st' => parseLinesFrom m3u_url st' ls

/-- Parse a list of lines starting from the initial state
(`channels = []`, `current_channel_info = {}`). -/
def parseLines (m3u_url : String) (lines : List (List Char)) :
    Except ParseErr (List Channel) :=
  parseLinesFrom m3u_url ⟨[], none⟩ lines

/-- Lines 95-145 applied to a whole playlist text: split into lines and
run the loop. (The `#EXTM3U` header check of lines 97-100 only logs a
warning and has no effect on the result.) -/
def parseContent (m3u_url content : String) : Except ParseErr (List Channel) :=
  parseLines m3u_url (splitLines content.data)

/-- A metadata line / URL line pair that the loop turns into one channel:
the stripped metadata line matches `EXTINF_REGEX` with a participating
`group-title` group (so that emission does not raise), and the stripped
second line is a stream URL. -/
def GoodPair (p : List Char × List Char) : Prop :=
  (∃ g, extinfMatchL (stripL p.1) = some g ∧ g.group_title.isSome = true) ∧
    isStreamUrl (stripL p.2) = true

/-- The channel a good pair is turned into. -/
def emitOf (m3u_url : String) (p : List Char × List Char) : Channel :=
  match extinfMatchL (stripL p.1) with
  | some g =>
    mkChannel m3u_url (applyNameFixups g)
      (((applyNameFixups g).group_title).getD "") (stripL p.2)
  | none => mkChannel m3u_url ⟨"", none, none, none, none, ""⟩ "" (stripL p.2)

/-- The input whose lines are exactly the given metadata/URL pairs in
order. -/
def pairLines : List (List Char × List Char) → List (List Char)
  | [] => []
  | p :: ps => p.1 :: p.2 :: pairLines ps

/-! ### The freshness cache of `async_parse_m3u`
(media_source.py lines 47-48, 60-63, 84-93, 144) -/

/-- `M3U_CACHE_SECONDS = 300`. -/
def M3U_CACHE_SECONDS : Int := 300

/-- One `PARSED_M3U_CACHE` slot: `{"timestamp": …, "channels": …}`. -/
structure CacheEntry where
  timestamp : Int
  channels : List Channel
deriving DecidableEq, Repr

/-- Outcome of the `session.get` fetch (lines 70-93): either the decoded
text (the charset fallback of lines 73-82 guarantees decoding never
fails), or an `aiohttp.ClientError` / `asyncio.TimeoutError`. -/
inductive FetchResult
  | ok (content : String)
  | err
deriving DecidableEq, Repr

/-- The observable outcome of one `async_parse_m3u` call. -/
inductive Outcome
  | ok (channels : List Channel)
  | browseError (msg : String)
  | pyError (e : ParseErr)
deriving DecidableEq, Repr

/-- `async_parse_m3u` for one playlist URL, with the ambient state made
explicit: `cache` is the `PARSED_M3U_CACHE` slot for `m3u_url`, `now` the
value of `time.time()`, and `fetch` the network outcome. Returns the
outcome, the new cache slot, and whether the fetch was attempted (i.e.
the cached-and-fresh early return of lines 61-63 was not taken). -/
def async_parse_m3u (cache : Option CacheEntry) (now : Int)
    (fetch : FetchResult) (m3u_url m3u_friendly_name : String) :
    Outcome × Option CacheEntry × Bool :=
  match cache with
  | some cd =>
    if now - cd.timestamp < M3U_CACHE_SECONDS then
      (.ok cd.channels, cache, false)
    else
      match fetch with
      | .err => (.ok cd.channels, cache, true)
      | .ok content =>
        match parseContent m3u_url content with
        | .error e => (.pyError e, cache, true)
        | .ok chs => (.ok chs, some ⟨now, chs⟩, true)
  | none =>
    match fetch with
    | .err =>
      (.browseError ("Could not fetch IPTV playlist: " ++ m3u_friendly_name),
        none, true)
    | .ok content =>
      match parseContent m3u_url content with
      | .error e => (.pyError e, none, true)
      | .ok chs => (.ok chs, some ⟨now, chs⟩, true)

/-! ### `async_resolve_media` (media_source.py lines 163-167) -/

/-- The `PlayMedia(url, mime_type)` pair. -/
structure PlayMedia where
  url : String
  mime_type : String
deriving DecidableEq, Repr

/-- `async_resolve_media`: return `PlayMedia(item.identifier,
"application/x-mpegURL")` — no lookup, no network access. -/
def async_resolve_media (identifier : String) : PlayMedia :=
  ⟨identifier, "application/x-mpegURL"⟩

/-! ### `_async_browse_m3u_channels` (media_source.py lines 234-282) -/

/-- The fields of a child `BrowseMediaSource` relevant here
(lines 267-278). -/
structure BrowseItem where
  identifier : String
  title : String
  thumbnail : Option String
  can_play : Bool
  can_expand : Bool
deriving DecidableEq, Repr

/-- Build one channel child (lines 262-278). -/
def channelToBrowse (ch : Channel) : BrowseItem :=
  ⟨ch.url, ch.name, ch.logo, true, false⟩

/-- The playlist node returned to the host UI. -/
structure BrowseNode where
  identifier : String
  title : String
  can_expand : Bool
  children : List BrowseItem
deriving DecidableEq, Repr

/-- Key order used by `children.sort(key=lambda x: x.title)`:
Python compares strings lexicographically by code point, as does
Lean's `String` order. -/
def titleLe (a b : BrowseItem) : Prop := a.title ≤ b.title

instance : DecidableRel titleLe := fun a b =>
  inferInstanceAs (Decidable (a.title ≤ b.title))

instance : IsTotal BrowseItem titleLe :=
  ⟨fun a b => le_total a.title b.title⟩

instance : IsTrans BrowseItem titleLe :=
  ⟨fun _ _ _ h1 h2 => le_trans h1 h2⟩

/-- Lines 246-282 after a successful parse: build children from the
channel list in order, then sort by title (`list.sort` is a stable sort
by the key, modelled by the stable `insertionSort`); with no channels the
node is returned childless and non-expandable. -/
def browseM3uChannels (m3u_url playlist_title : String)
    (channels : List Channel) : BrowseNode :=
  if channels.isEmpty then ⟨m3u_url, playlist_title, false, []⟩
  else
    ⟨m3u_url, playlist_title, true,
      List.insertionSort titleLe (channels.map channelToBrowse)⟩

end IPTV

/-! ## Supporting lemmas about the loop -/

theorem isStreamUrl_ne_nil {l : List Char} (h : IPTV.isStreamUrl l = true) :
    l.isEmpty = false := by
  cases l with
  | nil => exact absurd h (by decide)
  | cons c cs => rfl

theorem isStreamUrl_head {c : Char} {cs : List Char}
    (h : IPTV.isStreamUrl (c :: cs) = true) : c = 'h' := by
  have h7 : "http://".data = ['h', 't', 't', 'p', ':', '/', '/'] := by decide
  have h8 : "https://".data = ['h', 't', 't', 'p', 's', ':', '/', '/'] := by
    decide
  simp only [IPTV.isStreamUrl, h7, h8, List.isPrefixOf, Bool.or_eq_true,
    Bool.and_eq_true, beq_iff_eq] at h
  rcases h with ⟨h, _⟩ | ⟨h, _⟩ <;> exact h.symm

/-- A stream-URL line never matches `EXTINF_REGEX` (it starts with `h`,
not `#`). -/
theorem extinfMatchL_eq_none_of_streamUrl {l : List Char}
    (h : IPTV.isStreamUrl l = true) : IPTV.extinfMatchL l = none := by
  cases l with
  | nil => exact absurd h (by decide)
  | cons c cs =>
    have hc : c = 'h' := isStreamUrl_head h
    subst hc
    have hk : IPTV.kExtinf = '#' :: "EXTINF:".data := by decide
    simp [IPTV.extinfMatchL, hk, IPTV.dropCaseLit,
      show IPTV.charIEq '#' 'h' = false from by decide]

/-- A line matching `EXTINF_REGEX` is non-empty. -/
theorem extinfMatchL_ne_nil {l : List Char} {g : IPTV.ExtinfInfo}
    (h : IPTV.extinfMatchL l = some g) : l.isEmpty = false := by
  cases l with
  | nil =>
    rw [show IPTV.extinfMatchL [] = none from by decide] at h
    cases h
  | cons c cs => rfl

/-- Lines 110-115 only ever rewrite the `name` entry of the dict. -/
theorem applyNameFixups_group_title (g : IPTV.ExtinfInfo) :
    (IPTV.applyNameFixups g).group_title = g.group_title := by
  unfold IPTV.applyNameFixups
  split <;> [skip; rfl]
  split <;> [split <;> rfl; rfl]

/-- A URL line hitting an empty pending-metadata slot changes nothing
(lines 134-139: it is only logged). -/
theorem processLine_url_empty_slot (m3u : String) (chs : List IPTV.Channel)
    {u : List Char} (h : IPTV.isStreamUrl (IPTV.stripL u) = true) :
    IPTV.processLine m3u ⟨chs, none⟩ u = Except.ok ⟨chs, none⟩ := by
  unfold IPTV.processLine
  simp [isStreamUrl_ne_nil h, extinfMatchL_eq_none_of_streamUrl h]

/-- A matching metadata line stores the (name-fixed) groups as the new
pending slot, replacing whatever was there, and emits nothing
(lines 107-115). -/
theorem processLine_metadata (m3u : String) (st : IPTV.PState)
    {m : List Char} {g : IPTV.ExtinfInfo}
    (h : IPTV.extinfMatchL (IPTV.stripL m) = some g) :
    IPTV.processLine m3u st m =
      Except.ok ⟨st.channels, some (IPTV.applyNameFixups g)⟩ := by
  unfold IPTV.processLine
  simp [extinfMatchL_ne_nil h, h]

/-- A URL line hitting a pending slot whose `group_title` participated
emits exactly one channel and clears the slot (lines 117-133). -/
theorem processLine_url_emit (m3u : String) (chs : List IPTV.Channel)
    {info : IPTV.ExtinfInfo} {gt : String} {u : List Char}
    (hg : info.group_title = some gt)
    (h : IPTV.isStreamUrl (IPTV.stripL u) = true) :
    IPTV.processLine m3u ⟨chs, some info⟩ u =
      Except.ok ⟨chs ++ [IPTV.mkChannel m3u info gt (IPTV.stripL u)], none⟩ := by
  unfold IPTV.processLine
  simp [isStreamUrl_ne_nil h, extinfMatchL_eq_none_of_streamUrl h, h, hg]

/-- Unfolding step of the loop fold. -/
theorem parseLinesFrom_cons (m3u : String) (st : IPTV.PState)
    (l : List Char) (ls : List (List Char)) :
    IPTV.parseLinesFrom m3u st (l :: ls) =
      match IPTV.processLine m3u st l with
      | Except.error e => Except.error e
      | Except.ok st' => IPTV.parseLinesFrom m3u st' ls := rfl

/-- The loop over a list of good metadata/URL pairs appends exactly one
channel per pair, in order, starting and ending with an empty pending
slot. -/
theorem parseLinesFrom_goodPairs (m3u : String) :
    ∀ (pairs : List (List Char × List Char)) (chs : List IPTV.Channel),
      (∀ p ∈ pairs, IPTV.GoodPair p) →
      IPTV.parseLinesFrom m3u ⟨chs, none⟩ (IPTV.pairLines pairs) =
        Except.ok (chs ++ pairs.map (IPTV.emitOf m3u)) := by
  intro pairs
  induction pairs with
  | nil => intro chs _; simp [IPTV.pairLines, IPTV.parseLinesFrom]
  | cons p ps ih =>
    intro chs hall
    obtain ⟨⟨g, hm, hgt⟩, hu⟩ := hall p (by simp)
    obtain ⟨gt, hgt'⟩ := Option.isSome_iff_exists.mp hgt
    have hfix : (IPTV.applyNameFixups g).group_title = some gt := by
      rw [applyNameFixups_group_title, hgt']
    have hemit : IPTV.emitOf m3u p =
        IPTV.mkChannel m3u (IPTV.applyNameFixups g) gt (IPTV.stripL p.2) := by
      unfold IPTV.emitOf
      rw [hm]
      simp [hfix]
    have h1 : IPTV.parseLinesFrom m3u ⟨chs, none⟩ (IPTV.pairLines (p :: ps)) =
        IPTV.parseLinesFrom m3u ⟨chs ++ [IPTV.emitOf m3u p], none⟩
          (IPTV.pairLines ps) := by
      show IPTV.parseLinesFrom m3u ⟨chs, none⟩
          (p.1 :: p.2 :: IPTV.pairLines ps) = _
      rw [parseLinesFrom_cons, processLine_metadata m3u _ hm]
      show IPTV.parseLinesFrom m3u ⟨chs, some (IPTV.applyNameFixups g)⟩
          (p.2 :: IPTV.pairLines ps) = _
      rw [parseLinesFrom_cons, processLine_url_emit m3u chs hfix hu]
      show IPTV.parseLinesFrom m3u
          ⟨chs ++ [IPTV.mkChannel m3u (IPTV.applyNameFixups g) gt
            (IPTV.stripL p.2)], none⟩ (IPTV.pairLines ps) = _
      rw [hemit]
    rw [h1, ih _ (fun q hq => hall q (by simp [hq]))]
    simp

/-! ## Supporting lemmas about the regex matcher -/

/-- A case-insensitive literal consumes itself. -/
theorem dropCaseLit_self (k rest : List Char) :
    IPTV.dropCaseLit k (k ++ rest) = some rest := by
  induction k with
  | nil => rfl
  | cons c ks ih => simp [IPTV.dropCaseLit, IPTV.charIEq, ih]

/-- `-?\d+` on a non-empty digit run followed by a non-digit consumes
exactly the run. -/
theorem matchDuration_digits {dur rest : List Char} {c : Char}
    (h1 : dur ≠ []) (h2 : ∀ x ∈ dur, x.isDigit = true)
    (hc : c.isDigit = false) :
    IPTV.matchDuration (dur ++ c :: rest) = some (dur, c :: rest) := by
  cases dur with
  | nil => exact absurd rfl h1
  | cons d ds =>
    have hd : d.isDigit = true := h2 d (by simp)
    have ht : List.takeWhile Char.isDigit ((d :: ds) ++ c :: rest) =
        d :: ds := by
      rw [List.takeWhile_append_of_pos h2,
        List.takeWhile_cons_of_neg (by simp [hc])]
      simp
    have hw : List.dropWhile Char.isDigit ((d :: ds) ++ c :: rest) =
        c :: rest := by
      rw [List.dropWhile_append_of_pos h2,
        List.dropWhile_cons_of_neg (by simp [hc])]
    unfold IPTV.matchDuration
    rw [List.cons_append]
    split
    · rename_i cs' heq
      injection heq with e1 e2
      rw [e1] at hd
      exact absurd hd (by decide)
    · rw [← List.cons_append, ht, hw]
      simp

/-- An optional attribute group whose key sits right at the current
position (one space, then the key literal, then a quote-free value and
its closing quote) matches immediately — the lazy `.*?` takes its
shortest expansion — and hands the value and the remainder to the
continuation. -/
theorem tryAttr_immediate {α : Type} (k0 : Char) (ks v rest : List Char)
    (hk0 : IPTV.isSpc k0 = false) (hv : '"' ∉ v)
    (next : Option (List Char) → List Char → Option α) (a : α)
    (h : next (some v) rest = some a) :
    IPTV.tryAttr (k0 :: ks) next
      (' ' :: ((k0 :: ks) ++ (v ++ '"' :: rest))) = some a := by
  have hvp : ∀ x ∈ v, (fun d => !(d = '"' : Bool)) x = true := by
    intro x hx
    simp
    intro hq
    exact absurd (hq ▸ hx) hv
  have hq : ¬ ((fun d => !(d = '"' : Bool)) '"' = true) := by simp
  have e1 : List.dropWhile IPTV.isSpc ((k0 :: ks) ++ (v ++ '"' :: rest)) =
      (k0 :: ks) ++ (v ++ '"' :: rest) := by
    rw [List.cons_append]
    rw [List.dropWhile_cons_of_neg (show ¬ (IPTV.isSpc k0 = true) by
      simp [hk0])]
  have e2 : IPTV.dropCaseLit (k0 :: ks) ((k0 :: ks) ++ (v ++ '"' :: rest)) =
      some (v ++ '"' :: rest) := dropCaseLit_self _ _
  have e3 : List.dropWhile (fun d => !(d = '"' : Bool)) (v ++ '"' :: rest) =
      '"' :: rest := by
    rw [List.dropWhile_append_of_pos hvp,
      @List.dropWhile_cons_of_neg Char (fun d => !(d = '"' : Bool)) '"'
        rest hq]
  have e4 : List.takeWhile (fun d => !(d = '"' : Bool)) (v ++ '"' :: rest) =
      v := by
    rw [List.takeWhile_append_of_pos hvp,
      @List.takeWhile_cons_of_neg Char (fun d => !(d = '"' : Bool)) '"'
        rest hq]
    simp
  have hm : IPTV.matchAttrAt (k0 :: ks)
      (' ' :: ((k0 :: ks) ++ (v ++ '"' :: rest))) = some (v, rest) := by
    simp only [IPTV.matchAttrAt, show IPTV.isSpc ' ' = true from by decide,
      if_true, e1, e2, e3, e4]
  show IPTV.tryAttrGo (k0 :: ks) next _ _ = some a
  rw [IPTV.tryAttrGo, hm]
  simp only [h]

/-- `.*?,\s*([^,]+)$` on a final comma whose suffix has no comma and is
not all whitespace captures the suffix without its leading whitespace. -/
theorem matchTail_comma {nm : List Char} (hc : ',' ∉ nm)
    (hs : nm.dropWhile IPTV.isSpc ≠ []) :
    IPTV.matchTail (',' :: nm) = some (nm.dropWhile IPTV.isSpc) := by
  rw [IPTV.matchTail]
  rw [if_pos]
  · simp [List.isEmpty_eq_false.mpr hs]
  · simp [List.contains, hc]

/-! ## Claim theorems -/

/-- C1: the claim says parsing has no error outcome and every malformed or
unrecognized line is only skipped. The code violates this: a well-formed
metadata line without a `group-title` attribute followed by a URL line makes
line 122 call `.strip()` on `None` (`groupdict()` stores `None` for the
non-participating group, so the `"Uncategorized"` default of `dict.get` is
never used), raising an uncaught `AttributeError`. This theorem evaluates
the embedded loop at such an input. -/
theorem C1_parse_raises_on_missing_group_title :
    IPTV.parseContent "http://pl"
        "#EXTM3U\n#EXTINF:-1,News\nhttp://stream/1.m3u8\n" =
      Except.error IPTV.ParseErr.attrNoneStrip := by decide

/-- C2: the claim says `#EXTINF:-1,\nhttp://stream/2.m3u8\n` parses to one
channel named `"Unnamed Channel"` in group `"Uncategorized"`. The code
violates this: the `name` group of `EXTINF_REGEX` is `[^,]+`, which needs at
least one character, so the metadata line `#EXTINF:-1,` does not match at
all, the pending-metadata slot stays empty, the URL line is skipped, and the
parse yields zero channels (the `"Unnamed Channel"` fallbacks at lines
110-115 and 120 are unreachable). -/
theorem C2_empty_name_line_yields_no_channel :
    IPTV.extinfMatch "#EXTINF:-1," = none ∧
    IPTV.parseContent "http://pl" "#EXTINF:-1,\nhttp://stream/2.m3u8\n" =
      Except.ok [] := by decide

/-- C5 counterexample: permuting the attributes on a metadata line does
change the parsed metadata. With the canonical order `tvg-id` before
`tvg-name` both attributes are extracted; with the two attributes swapped
the engine's first match lets the `tvg-id` group's lazy `.*?` skip over
`tvg-name="A"`, and the later `tvg-name` group finds nothing in the
remainder, so `tvg_name` comes out `None` even though the attribute is on
the line. -/
theorem C5_counterexample_extraction_is_order_sensitive :
    IPTV.extinfMatch "#EXTINF:-1 tvg-id=\"B\" tvg-name=\"A\",Name" =
      some ⟨"-1", some "B", some "A", none, none, "Name"⟩ ∧
    IPTV.extinfMatch "#EXTINF:-1 tvg-name=\"A\" tvg-id=\"B\",Name" =
      some ⟨"-1", some "B", none, none, none, "Name"⟩ := by decide

/-- C5 (amended): extraction is order-sensitive, not order-insensitive.
In the canonical attribute order `tvg-id`, `tvg-name`, `tvg-logo`,
`group-title` every attribute present is extracted: for all quote-free
attribute values and every comma-free, not-all-whitespace display name,
the metadata line carrying the four attributes in canonical order matches
with each attribute captured exactly. (Out of this order attributes can be
silently dropped — see the counterexample.) -/
theorem C5_canonical_order_extracts_every_attribute :
    ∀ (dur tid tnm tlg tgt nm : List Char),
      dur ≠ [] → (∀ c ∈ dur, c.isDigit = true) →
      '"' ∉ tid → '"' ∉ tnm → '"' ∉ tlg → '"' ∉ tgt →
      ',' ∉ nm → nm.dropWhile IPTV.isSpc ≠ [] →
      IPTV.extinfMatchL ("#EXTINF:".data ++ (dur ++ (" tvg-id=\"".data ++
          (tid ++ ("\" tvg-name=\"".data ++ (tnm ++ ("\" tvg-logo=\"".data ++
          (tlg ++ ("\" group-title=\"".data ++ (tgt ++ ("\",".data ++
          nm))))))))))) =
        some ⟨⟨dur⟩, some ⟨tid⟩, some ⟨tnm⟩, some ⟨tlg⟩, some ⟨tgt⟩,
          ⟨nm.dropWhile IPTV.isSpc⟩⟩ := by
  intro dur tid tnm tlg tgt nm h1 h2 hq1 hq2 hq3 hq4 hc hs
  show IPTV.extinfMatchL (IPTV.kExtinf ++ (dur ++ (' ' ::
      (('t' :: "vg-id=\"".data) ++ (tid ++ ('"' :: (' ' ::
      (('t' :: "vg-name=\"".data) ++ (tnm ++ ('"' :: (' ' ::
      (('t' :: "vg-logo=\"".data) ++ (tlg ++ ('"' :: (' ' ::
      (('g' :: "roup-title=\"".data) ++ (tgt ++ ('"' :: (',' ::
      nm))))))))))))))))))) =
    some ⟨⟨dur⟩, some ⟨tid⟩, some ⟨tnm⟩, some ⟨tlg⟩, some ⟨tgt⟩,
      ⟨nm.dropWhile IPTV.isSpc⟩⟩
  unfold IPTV.extinfMatchL
  simp only [dropCaseLit_self]
  simp only [matchDuration_digits h1 h2
    (show (' ').isDigit = false from by decide)]
  refine tryAttr_immediate 't' "vg-id=\"".data tid _ (by decide) hq1 _ _ ?_
  refine tryAttr_immediate 't' "vg-name=\"".data tnm _ (by decide) hq2 _ _ ?_
  refine tryAttr_immediate 't' "vg-logo=\"".data tlg _ (by decide) hq3 _ _ ?_
  refine tryAttr_immediate 'g' "roup-title=\"".data tgt _ (by decide) hq4 _
    _ ?_
  simp only [matchTail_comma hc hs, Option.map_some']

/-- Witness for C5 (amended) at concrete attribute values. -/
theorem C5_canonical_order_extracts_every_attribute_witness :
    IPTV.extinfMatchL ("#EXTINF:".data ++ (['1'] ++ (" tvg-id=\"".data ++
        (['a'] ++ ("\" tvg-name=\"".data ++ (['b'] ++
        ("\" tvg-logo=\"".data ++ (['c'] ++ ("\" group-title=\"".data ++
        (['d'] ++ ("\",".data ++ ['N']))))))))))) =
      some ⟨⟨['1']⟩, some ⟨['a']⟩, some ⟨['b']⟩, some ⟨['c']⟩, some ⟨['d']⟩,
        ⟨['N'].dropWhile IPTV.isSpc⟩⟩ :=
  C5_canonical_order_extracts_every_attribute ['1'] ['a'] ['b'] ['c'] ['d']
    ['N'] (by decide) (by decide) (by decide) (by decide) (by decide)
    (by decide) (by decide) (by decide)

/-- C6 counterexample: a perfectly valid metadata+URL pair whose metadata
line carries no `group-title` attribute does not produce one ChannelRecord:
the emission step raises the uncaught `AttributeError` of line 122, so the
parse has an error outcome and in particular does not return the single
record the claim predicts. -/
theorem C6_counterexample_pair_without_group_crashes :
    IPTV.parseLines "http://pl"
        ["#EXTINF:-1,News".data, "http://stream/1.m3u8".data] =
      Except.error IPTV.ParseErr.attrNoneStrip ∧
    IPTV.parseLines "http://pl"
        ["#EXTINF:-1,News".data, "http://stream/1.m3u8".data] ≠
      Except.ok [⟨"News", "http://stream/1.m3u8", none, "Uncategorized",
        "http://pl"⟩] := by decide

/-- C6 (amended): for every input consisting of valid metadata+URL line
pairs **whose metadata lines carry a participating `group-title`
attribute**, the parse emits exactly one ChannelRecord per pair, in input
order; and the pending-metadata slot is cleared after each emission, so a
metadata block immediately followed by two URL lines yields only one
channel, for the first URL. -/
theorem C6_one_record_per_good_pair_in_order :
    (∀ (m3u : String) (pairs : List (List Char × List Char)),
      (∀ p ∈ pairs, IPTV.GoodPair p) →
      IPTV.parseLines m3u (IPTV.pairLines pairs) =
        Except.ok (pairs.map (IPTV.emitOf m3u))) ∧
    (∀ (m3u : String) (m u1 u2 : List Char),
      IPTV.GoodPair (m, u1) → IPTV.isStreamUrl (IPTV.stripL u2) = true →
      IPTV.parseLines m3u [m, u1, u2] =
        Except.ok [IPTV.emitOf m3u (m, u1)]) := by
  constructor
  · intro m3u pairs hall
    have := parseLinesFrom_goodPairs m3u pairs [] hall
    simpa [IPTV.parseLines] using this
  · intro m3u m u1 u2 hgp hu2
    obtain ⟨⟨g, hm, hgt⟩, hu1⟩ := hgp
    obtain ⟨gt, hgt'⟩ := Option.isSome_iff_exists.mp hgt
    have hfix : (IPTV.applyNameFixups g).group_title = some gt := by
      rw [applyNameFixups_group_title, hgt']
    have hemit : IPTV.emitOf m3u (m, u1) =
        IPTV.mkChannel m3u (IPTV.applyNameFixups g) gt (IPTV.stripL u1) := by
      unfold IPTV.emitOf
      rw [show IPTV.extinfMatchL (IPTV.stripL (m, u1).1) = some g from hm]
      simp [hfix]
    show IPTV.parseLinesFrom m3u ⟨[], none⟩ [m, u1, u2] = _
    rw [parseLinesFrom_cons, processLine_metadata m3u _ hm]
    show IPTV.parseLinesFrom m3u ⟨[], some (IPTV.applyNameFixups g)⟩
        [u1, u2] = _
    rw [parseLinesFrom_cons, processLine_url_emit m3u [] hfix hu1]
    show IPTV.parseLinesFrom m3u
        ⟨[IPTV.mkChannel m3u (IPTV.applyNameFixups g) gt (IPTV.stripL u1)],
          none⟩ [u2] = _
    rw [parseLinesFrom_cons, processLine_url_empty_slot m3u _ hu2, hemit]
    rfl

/-- Witness for C6 (amended): one concrete good pair yields exactly its
one record, and the same pair followed by a second URL line still yields
only that one record. -/
theorem C6_one_record_per_good_pair_in_order_witness :
    IPTV.parseLines "http://pl"
        (IPTV.pairLines [("#EXTINF:-1 group-title=\"G\",A".data,
          "http://a.m3u8".data)]) =
      Except.ok ([("#EXTINF:-1 group-title=\"G\",A".data,
        "http://a.m3u8".data)].map (IPTV.emitOf "http://pl")) ∧
    IPTV.parseLines "http://pl"
        ["#EXTINF:-1 group-title=\"G\",A".data, "http://a.m3u8".data,
          "http://b.m3u8".data] =
      Except.ok [IPTV.emitOf "http://pl"
        ("#EXTINF:-1 group-title=\"G\",A".data, "http://a.m3u8".data)] := by
  constructor
  · refine C6_one_record_per_good_pair_in_order.1 "http://pl" _ ?_
    intro p hp
    rw [List.mem_singleton] at hp
    subst hp
    exact ⟨⟨⟨"-1", none, none, none, some "G", "A"⟩, by decide, by decide⟩,
      by decide⟩
  · exact C6_one_record_per_good_pair_in_order.2 "http://pl" _ _ _
      ⟨⟨⟨"-1", none, none, none, some "G", "A"⟩, by decide, by decide⟩,
        by decide⟩ (by decide)

/-- C7: lines outside the metadata+URL pattern produce nothing and no
error: (i) any line that neither matches `EXTINF_REGEX` nor is a stream
URL leaves the whole state unchanged; (ii) a URL line encountered while
the pending-metadata slot is empty yields no record; (iii) a metadata line
followed by another metadata line (no URL line in between) yields zero
records for the orphaned metadata — the second metadata line simply
replaces it in the slot. -/
theorem C7_lines_outside_pattern_produce_nothing :
    (∀ (m3u : String) (st : IPTV.PState) (l : List Char),
      IPTV.extinfMatchL (IPTV.stripL l) = none →
      IPTV.isStreamUrl (IPTV.stripL l) = false →
      IPTV.processLine m3u st l = Except.ok st) ∧
    (∀ (m3u : String) (chs : List IPTV.Channel) (u : List Char),
      IPTV.isStreamUrl (IPTV.stripL u) = true →
      IPTV.processLine m3u ⟨chs, none⟩ u = Except.ok ⟨chs, none⟩) ∧
    (∀ (m3u : String) (st : IPTV.PState) (m1 m2 : List Char)
        (g1 g2 : IPTV.ExtinfInfo),
      IPTV.extinfMatchL (IPTV.stripL m1) = some g1 →
      IPTV.extinfMatchL (IPTV.stripL m2) = some g2 →
      (IPTV.processLine m3u st m1).bind
          (fun st1 => IPTV.processLine m3u st1 m2) =
        Except.ok ⟨st.channels, some (IPTV.applyNameFixups g2)⟩) := by
  refine ⟨?_, ?_, ?_⟩
  · intro m3u st l hm hu
    unfold IPTV.processLine
    cases hc : st.cur <;> simp [hm, hu, hc]
  · intro m3u chs u hu
    exact processLine_url_empty_slot m3u chs hu
  · intro m3u st m1 m2 g1 g2 h1 h2
    rw [processLine_metadata m3u st h1]
    show IPTV.processLine m3u ⟨st.channels, some (IPTV.applyNameFixups g1)⟩
        m2 = _
    rw [processLine_metadata m3u _ h2]

/-- Witness for C7 at concrete lines: a comment line, a URL with no
pending metadata, and two consecutive metadata lines. -/
theorem C7_lines_outside_pattern_produce_nothing_witness :
    IPTV.processLine "u" ⟨[], none⟩ "# some comment".data =
      Except.ok ⟨[], none⟩ ∧
    IPTV.processLine "u" ⟨[], none⟩ "http://a.m3u8".data =
      Except.ok ⟨[], none⟩ ∧
    (IPTV.processLine "u" ⟨[], none⟩ "#EXTINF:-1,A".data).bind
        (fun st1 => IPTV.processLine "u" st1 "#EXTINF:-1,B".data) =
      Except.ok ⟨[], some (IPTV.applyNameFixups
        ⟨"-1", none, none, none, none, "B"⟩)⟩ :=
  ⟨C7_lines_outside_pattern_produce_nothing.1 "u" ⟨[], none⟩
      "# some comment".data (by decide) (by decide),
   C7_lines_outside_pattern_produce_nothing.2.1 "u" [] "http://a.m3u8".data
      (by decide),
   C7_lines_outside_pattern_produce_nothing.2.2 "u" ⟨[], none⟩ _ _
      ⟨"-1", none, none, none, none, "A"⟩ ⟨"-1", none, none, none, none, "B"⟩
      (by decide) (by decide)⟩

/-- C9: resolving is a pure identity mapping: for every identifier string
the resolved `PlayMedia` carries exactly that string as the URL together
with the fixed content type `application/x-mpegURL`; the embedded
`async_resolve_media` consults neither the cache nor the network. -/
theorem C9_resolve_is_identity (s : String) :
    (IPTV.async_resolve_media s).url = s ∧
    (IPTV.async_resolve_media s).mime_type = "application/x-mpegURL" :=
  ⟨rfl, rfl⟩

/-- C3: with a cache entry younger than 300 seconds, `async_parse_m3u`
returns the cached channels unchanged and performs no fetch (whatever the
network would have done); and starting from an empty cache, a first call
that fetches successfully followed by a second call within 300 seconds
performs exactly one fetch: the first call fetches (`true`), the second
serves the first call's channels from cache without fetching (`false`). -/
theorem C3_fresh_cache_serves_without_fetch :
    (∀ (cd : IPTV.CacheEntry) (now : Int) (fetch : IPTV.FetchResult)
        (url fr : String),
      now - cd.timestamp < 300 →
      IPTV.async_parse_m3u (some cd) now fetch url fr =
        (IPTV.Outcome.ok cd.channels, some cd, false)) ∧
    (∀ (t0 t1 : Int) (content url fr : String) (chs : List IPTV.Channel)
        (fetch2 : IPTV.FetchResult),
      IPTV.parseContent url content = Except.ok chs →
      t1 - t0 < 300 →
      IPTV.async_parse_m3u none t0 (IPTV.FetchResult.ok content) url fr =
          (IPTV.Outcome.ok chs, some ⟨t0, chs⟩, true) ∧
        IPTV.async_parse_m3u (some ⟨t0, chs⟩) t1 fetch2 url fr =
          (IPTV.Outcome.ok chs, some ⟨t0, chs⟩, false)) := by
  constructor
  · intro cd now fetch url fr h
    simp [IPTV.async_parse_m3u, IPTV.M3U_CACHE_SECONDS, h]
  · intro t0 t1 content url fr chs fetch2 hp ht
    refine ⟨?_, ?_⟩
    · simp [IPTV.async_parse_m3u, hp]
    · simp [IPTV.async_parse_m3u, IPTV.M3U_CACHE_SECONDS, ht]

/-- Witness for C3 at concrete inputs: a fresh entry (age 100 s) is served
without a fetch, and the one-fetch two-call scenario starting from an empty
cache for the empty playlist text. -/
theorem C3_fresh_cache_serves_without_fetch_witness :
    IPTV.async_parse_m3u (some ⟨0, []⟩) 100 IPTV.FetchResult.err "u" "f" =
      (IPTV.Outcome.ok [], some ⟨0, []⟩, false) ∧
    IPTV.async_parse_m3u none 0 (IPTV.FetchResult.ok "") "u" "f" =
      (IPTV.Outcome.ok [], some ⟨0, []⟩, true) ∧
    IPTV.async_parse_m3u (some ⟨0, []⟩) 10 IPTV.FetchResult.err "u" "f" =
      (IPTV.Outcome.ok [], some ⟨0, []⟩, false) := by
  refine ⟨C3_fresh_cache_serves_without_fetch.1 ⟨0, []⟩ 100
    IPTV.FetchResult.err "u" "f" (by decide), ?_, ?_⟩
  · exact (C3_fresh_cache_serves_without_fetch.2 0 10 "" "u" "f" []
      IPTV.FetchResult.err (by decide) (by decide)).1
  · exact (C3_fresh_cache_serves_without_fetch.2 0 10 "" "u" "f" []
      IPTV.FetchResult.err (by decide) (by decide)).2

/-- C4: when the fetch fails, a call with any pre-existing cache entry
(however stale) returns exactly that entry's channels and leaves the entry
in place; with no pre-existing entry it raises the browse-level error
`"Could not fetch IPTV playlist: <friendly name>"`, whose message names the
source. -/
theorem C4_fetch_failure_stale_fallback_or_browse_error :
    (∀ (cd : IPTV.CacheEntry) (now : Int) (url fr : String),
      (IPTV.async_parse_m3u (some cd) now IPTV.FetchResult.err url fr).1 =
          IPTV.Outcome.ok cd.channels ∧
      (IPTV.async_parse_m3u (some cd) now IPTV.FetchResult.err url fr).2.1 =
          some cd) ∧
    (∀ (now : Int) (url fr : String),
      IPTV.async_parse_m3u none now IPTV.FetchResult.err url fr =
        (IPTV.Outcome.browseError ("Could not fetch IPTV playlist: " ++ fr),
          none, true)) := by
  constructor
  · intro cd now url fr
    by_cases h : now - cd.timestamp < IPTV.M3U_CACHE_SECONDS <;>
      simp [IPTV.async_parse_m3u, h]
  · intro now url fr
    simp [IPTV.async_parse_m3u]

/-- C8: the cache slot is replaced only by a complete, successfully parsed
result of a successful fetch, in a single assignment: either the slot is
left exactly as it was, or the fetch succeeded, the whole parse succeeded,
and the new slot holds precisely the full parsed channel list with the
current timestamp; in particular every error outcome (fetch failure
without fallback, or a parse exception) leaves the slot unchanged. -/
theorem C8_cache_replaced_only_after_full_success :
    ∀ (cache : Option IPTV.CacheEntry) (now : Int)
      (fetch : IPTV.FetchResult) (url fr : String),
      ((IPTV.async_parse_m3u cache now fetch url fr).2.1 = cache ∨
        ∃ content chs, fetch = IPTV.FetchResult.ok content ∧
          IPTV.parseContent url content = Except.ok chs ∧
          (IPTV.async_parse_m3u cache now fetch url fr).1 =
            IPTV.Outcome.ok chs ∧
          (IPTV.async_parse_m3u cache now fetch url fr).2.1 =
            some ⟨now, chs⟩) ∧
      (∀ msg, (IPTV.async_parse_m3u cache now fetch url fr).1 =
          IPTV.Outcome.browseError msg →
        (IPTV.async_parse_m3u cache now fetch url fr).2.1 = cache) ∧
      (∀ e, (IPTV.async_parse_m3u cache now fetch url fr).1 =
          IPTV.Outcome.pyError e →
        (IPTV.async_parse_m3u cache now fetch url fr).2.1 = cache) := by
  intro cache now fetch url fr
  match cache with
  | some cd =>
    by_cases h : now - cd.timestamp < IPTV.M3U_CACHE_SECONDS
    · simp [IPTV.async_parse_m3u, h]
    · match fetch with
      | .err => simp [IPTV.async_parse_m3u, h]
      | .ok content =>
        rcases hp : IPTV.parseContent url content with e | chs
        · simp [IPTV.async_parse_m3u, h, hp]
        · exact ⟨Or.inr ⟨content, chs, rfl, hp, by
            simp [IPTV.async_parse_m3u, h, hp], by
            simp [IPTV.async_parse_m3u, h, hp]⟩,
            by simp [IPTV.async_parse_m3u, h, hp],
            by simp [IPTV.async_parse_m3u, h, hp]⟩
  | none =>
    match fetch with
    | .err => simp [IPTV.async_parse_m3u]
    | .ok content =>
      rcases hp : IPTV.parseContent url content with e | chs
      · simp [IPTV.async_parse_m3u, hp]
      · exact ⟨Or.inr ⟨content, chs, rfl, hp, by
          simp [IPTV.async_parse_m3u, hp], by
          simp [IPTV.async_parse_m3u, hp]⟩,
          by simp [IPTV.async_parse_m3u, hp],
          by simp [IPTV.async_parse_m3u, hp]⟩

/-- Witness for C8 at a concrete input: a failed fetch with an empty cache
produces a browse error and leaves the (absent) cache slot unchanged. -/
theorem C8_cache_replaced_only_after_full_success_witness :
    (IPTV.async_parse_m3u none 0 IPTV.FetchResult.err "u" "f").2.1 = none :=
  (C8_cache_replaced_only_after_full_success none 0
    IPTV.FetchResult.err "u" "f").2.1
    ("Could not fetch IPTV playlist: " ++ "f") (by decide)

/-- C10: for every successful browse of a playlist with at least one
channel, the children handed to the host UI are exactly the per-channel
items (a permutation of the parser's encounter-order listing) arranged in
non-decreasing title order — i.e. the browse-level order is the sorted
order, not the parser's order. -/
theorem C10_browse_children_sorted_by_title :
    ∀ (url title : String) (chs : List IPTV.Channel), chs ≠ [] →
      (IPTV.browseM3uChannels url title chs).children.Perm
          (chs.map IPTV.channelToBrowse) ∧
      List.Sorted IPTV.titleLe (IPTV.browseM3uChannels url title chs).children := by
  intro url title chs h
  have hne : chs.isEmpty = false := by
    cases chs with
    | nil => exact absurd rfl h
    | cons a l => rfl
  constructor
  · simpa [IPTV.browseM3uChannels, hne] using
      List.perm_insertionSort IPTV.titleLe (chs.map IPTV.channelToBrowse)
  · simpa [IPTV.browseM3uChannels, hne] using
      List.sorted_insertionSort IPTV.titleLe (chs.map IPTV.channelToBrowse)

/-- Witness for C10: two concrete channels whose encounter order is
reversed alphabetically come back sorted. -/
theorem C10_browse_children_sorted_by_title_witness :
    (IPTV.browseM3uChannels "u" "t"
        [⟨"B", "http://b", none, "g", "u"⟩,
         ⟨"A", "http://a", none, "g", "u"⟩]).children.Perm
      ([⟨"B", "http://b", none, "g", "u"⟩,
        ⟨"A", "http://a", none, "g", "u"⟩].map IPTV.channelToBrowse) ∧
    List.Sorted IPTV.titleLe
      (IPTV.browseM3uChannels "u" "t"
        [⟨"B", "http://b", none, "g", "u"⟩,
         ⟨"A", "http://a", none, "g", "u"⟩]).children :=
  C10_browse_children_sorted_by_title "u" "t"
    [⟨"B", "http://b", none, "g", "u"⟩, ⟨"A", "http://a", none, "g", "u"⟩]
    (by decide)
